import Mathlib

/-!
Verification development for the NFL-Fantasy roster and snake-draft core.

This file is a shallow embedding of `src/nflfantasy/roster.py` and
`src/nflfantasy/draft.py`.  Python exceptions are modelled with an explicit
error type; stateful methods are functions returning the next state together
with an `Except` outcome, because a Python exception leaves all mutations
performed before the raise in place.  Python dictionaries are association
lists, Python tuples of optional players are `List (Option Player)`, and the
pick generator of the draft is the list of remaining picks.
-/

namespace NflFantasy

/-- Kinds of Python exceptions raised by the embedded code.  The three
TypeError constructors record the distinct sources of TypeError observed in
the code: subscripting a `Positions` object (which defines no item access),
assigning into a slot tuple, and unpacking `None` with a star argument. -/
inductive PyErr where
  | typeErrorNotSubscriptable
  | typeErrorTupleAssign
  | typeErrorUnpackNone
  | valueError
  | keyError
  | attributeError
  | indexError
  | stopIteration
  deriving DecidableEq, Repr

instance {ε α : Type} [DecidableEq ε] [DecidableEq α] : DecidableEq (Except ε α)
  | .error e, .error f => decidable_of_iff (e = f) (by simp)
  | .error _, .ok _ => .isFalse (by simp)
  | .ok _, .error _ => .isFalse (by simp)
  | .ok a, .ok b => decidable_of_iff (a = b) (by simp)

/-- `Player` named tuple: `{position, injured_reserve}`. -/
structure Player where
  position : String
  injured_reserve : Bool
  deriving DecidableEq, Repr

/-- Class-level configuration of a `Positions` class.  `flex` and `dst` are
bare annotations on the base class (no value), hence `Option`: reading an
unset one raises AttributeError.  `positionsOverride` models a subclass
assigning a class attribute named `positions`, which shadows the inherited
`positions` property (this is what `PositionsESPN` does). -/
structure PositionsClass where
  offense : List String
  flex : Option String
  dst : Option String
  kicker : String
  bench : String
  injured_reserve : String
  positionsOverride : Option (List String)
  deriving DecidableEq, Repr

/-- Reading a possibly-unset class attribute: AttributeError when absent. -/
def pyAttr (a : Option String) : Except PyErr String :=
  match a with
  | none => .error .attributeError
  | some s => .ok s

/-- `Positions.flexable`: `position in cls.offense and position != "QB"`.
A total boolean expression; no raise path exists. -/
def PositionsClass.flexable (c : PositionsClass) (position : String) : Bool :=
  c.offense.contains position && position != "QB"

/-- The `positions` attribute of a class: the shadowing class attribute when
one is assigned, else the property
`(*offense, flex, dst, kicker, bench, injured_reserve)`, which raises
AttributeError when `flex` or `dst` has no value. -/
def PositionsClass.positionsAttr (c : PositionsClass) : Except PyErr (List String) :=
  match c.positionsOverride with
  | some l => .ok l
  | none =>
    match pyAttr c.flex with
    | .error e => .error e
    | .ok f =>
      match pyAttr c.dst with
      | .error e => .error e
      | .ok d => .ok (c.offense ++ [f, d, c.kicker, c.bench, c.injured_reserve])

/-- The base `Positions` class: `offense = ("QB","WR","RB","TE")`,
`kicker = "K"`, `bench = "BN"`, `injured_reserve = "IR"`; `flex` and `dst`
are annotated but never assigned. -/
def positionsBaseCls : PositionsClass :=
  { offense := ["QB", "WR", "RB", "TE"], flex := none, dst := none,
    kicker := "K", bench := "BN", injured_reserve := "IR",
    positionsOverride := none }

/-- `PositionsESPN`: assigns `positions = ("QB","RB","WR","TE")` (a class
attribute that shadows the `positions` property), `flex = "FLEX"`,
`dst = "D/ST"`. -/
def positionsESPNCls : PositionsClass :=
  { positionsBaseCls with
    flex := some "FLEX"
    dst := some "D/ST"
    positionsOverride := some ["QB", "RB", "WR", "TE"] }

/-- `PositionsYahoo`: assigns `flex = "W-R-T"`, `dst = "DEF"`. -/
def positionsYahooCls : PositionsClass :=
  { positionsBaseCls with flex := some "W-R-T", dst := some "DEF" }

/-- A constructed `Positions` instance: its class plus the `_schema` mapping
(a dict from position code to slot count, keys in `positions` order). -/
structure Positions where
  cls : PositionsClass
  schema : List (String × Nat)
  deriving DecidableEq, Repr

/-- Python dict lookup `d[k]`: KeyError when the key is absent. -/
def dictGet {α : Type} (d : List (String × α)) (k : String) : Except PyErr α :=
  match d.find? (fun pr => pr.1 == k) with
  | some pr => .ok pr.2
  | none => .error .keyError

/-- Python dict assignment `d[k] = v`: overwrites the first binding of `k`,
appends when absent. -/
def dictSet {α : Type} (d : List (String × α)) (k : String) (v : α) :
    List (String × α) :=
  match d with
  | [] => [(k, v)]
  | pr :: rest => if pr.1 == k then (k, v) :: rest else pr :: dictSet rest k v

/-- `item in positionsInstance` delegates to the `positions` attribute. -/
def Positions.containsCode (p : Positions) (item : String) : Except PyErr Bool :=
  match PositionsClass.positionsAttr p.cls with
  | .error e => .error e
  | .ok pos => .ok (pos.contains item)

/-- `Positions.validate(*players)`: ValueError on the first player whose
position code is not canonical. -/
def Positions.validate (p : Positions) : List Player → Except PyErr Unit
  | [] => .ok ()
  | player :: rest =>
    match Positions.containsCode p player.position with
    | .error e => .error e
    | .ok b => if b then Positions.validate p rest else .error .valueError

/-- Python subscript `positionsInstance[key]`, as written in `Roster.add` and
`Roster.move` for the capacity lookup: the `Positions` class defines no
`__getitem__`, so every such subscript raises TypeError. -/
def Positions.getItem (_p : Positions) (_k : String) : Except PyErr Nat :=
  .error .typeErrorNotSubscriptable

/-- `Positions.moveable(player, destination)`: validates the player, raises
KeyError for a non-canonical destination, then evaluates the eligibility
disjunction with Python short-circuiting (`self.flex` is only read when
`flexable` is true, so an unset `flex` matters only on that path). -/
def Positions.moveable (p : Positions) (player : Player) (destination : String) :
    Except PyErr Bool :=
  match Positions.validate p [player] with
  | .error e => .error e
  | .ok _ =>
    match Positions.containsCode p destination with
    | .error e => .error e
    | .ok c =>
      if c = false then .error .keyError
      else if destination == p.cls.bench then .ok true
      else if destination == player.position then .ok true
      else if player.injured_reserve && destination == p.cls.injured_reserve then .ok true
      else if PositionsClass.flexable p.cls player.position then
        match pyAttr p.cls.flex with
        | .error e => .error e
        | .ok f => .ok (destination == f)
      else .ok false

/-- `tuple.index(x)`: first index holding `x`, ValueError when absent. -/
def tupleIndex (slots : List (Option Player)) (x : Option Player) :
    Except PyErr Nat :=
  match slots.findIdx? (fun s => s == x) with
  | some i => .ok i
  | none => .error .valueError

/-- Slot arrays are Python tuples (`Roster.__init__` builds
`tuple(None for _ in range(...))`), and tuples do not support item
assignment: every slot write in `add` and `drop` raises TypeError. -/
def tupleSetItem (_slots : List (Option Player)) (_i : Nat) (_v : Option Player) :
    Except PyErr (List (Option Player)) :=
  .error .typeErrorTupleAssign

/-- A `Roster`: its `Positions` instance and the `_roster` dict mapping each
position code to its tuple of slots. -/
structure Roster where
  positions : Positions
  roster : List (String × List (Option Player))
  deriving DecidableEq, Repr

/-- The common tail of the slot-selection chain in `Roster.add`: the bench
test `len(self.roster[self.positions.bench]) < self.positions[self.positions.bench]`,
reached when neither the natural-position test nor the flex test selected a
slot.  Returns `some code` for the selected slot array, `none` for the
loop's `continue`. -/
def Roster.addBench (r : Roster) : Except PyErr (Option String) :=
  match dictGet r.roster r.positions.cls.bench with
  | .error e => .error e
  | .ok benchSlots =>
    match Positions.getItem r.positions r.positions.cls.bench with
    | .error e => .error e
    | .ok benchCap =>
      if benchSlots.length < benchCap then .ok (some r.positions.cls.bench)
      else .ok none

/-- The `if`/`elif` chain of one iteration of `Roster.add`, selecting the
slot array for one player.  The very first test already subscripts the
`Positions` instance (`self.positions[player.position]`), which raises
TypeError, so no branch beyond `Positions.getItem` is reachable; the rest is
still translated for completeness. -/
def Roster.addChoose (r : Roster) (player : Player) : Except PyErr (Option String) :=
  match dictGet r.roster player.position with
  | .error e => .error e
  | .ok natural =>
    match Positions.getItem r.positions player.position with
    | .error e => .error e
    | .ok natCap =>
      if natural.length < natCap then .ok (some player.position)
      else if PositionsClass.flexable r.positions.cls player.position then
        match pyAttr r.positions.cls.flex with
        | .error e => .error e
        | .ok flexCode =>
          match dictGet r.roster flexCode with
          | .error e => .error e
          | .ok flexSlots =>
            match Positions.getItem r.positions flexCode with
            | .error e => .error e
            | .ok flexCap =>
              if flexSlots.length < flexCap then .ok (some flexCode)
              else Roster.addBench r
      else Roster.addBench r

/-- One iteration of the loop in `Roster.add`: select a slot array, then
`self.roster[position][self.roster[position].index(None)] = player`.
Returns the player when it was appended to `added`, `none` on `continue`. -/
def Roster.addStep (r : Roster) (player : Player) :
    Except PyErr (Roster × Option Player) :=
  match Roster.addChoose r player with
  | .error e => .error e
  | .ok none => .ok (r, none)
  | .ok (some position) =>
    match dictGet r.roster position with
    | .error e => .error e
    | .ok slots =>
      match tupleIndex slots none with
      | .error e => .error e
      | .ok idx =>
        match tupleSetItem slots idx (some player) with
        | .error e => .error e
        | .ok slots2 =>
          .ok ({ r with roster := dictSet r.roster position slots2 }, some player)

/-- The loop of `Roster.add` over the input players, accumulating the
`added` list.  A raise mid-loop keeps the mutations made so far. -/
def Roster.addRun (r : Roster) (added : List Player) :
    List Player → Roster × Except PyErr (List Player)
  | [] => (r, .ok added)
  | p :: rest =>
    match Roster.addStep r p with
    | .error e => (r, .error e)
    | .ok (r2, none) => Roster.addRun r2 added rest
    | .ok (r2, some q) => Roster.addRun r2 (added ++ [q]) rest

/-- `Roster.add(*players)`: validate all players, then run the placement
loop. -/
def Roster.add (r : Roster) (players : List Player) :
    Roster × Except PyErr (List Player) :=
  match Positions.validate r.positions players with
  | .error e => (r, .error e)
  | .ok _ => Roster.addRun r [] players

/-- The `if`/`elif` chain of one iteration of `Roster.drop`, locating the
slot array holding the player (natural position, then flex, then bench);
`none` models the loop's `continue`. -/
def Roster.dropChoose (r : Roster) (player : Player) : Except PyErr (Option String) :=
  match dictGet r.roster player.position with
  | .error e => .error e
  | .ok natural =>
    if natural.contains (some player) then .ok (some player.position)
    else
      match pyAttr r.positions.cls.flex with
      | .error e => .error e
      | .ok flexCode =>
        match dictGet r.roster flexCode with
        | .error e => .error e
        | .ok flexSlots =>
          if flexSlots.contains (some player) then .ok (some flexCode)
          else
            match dictGet r.roster r.positions.cls.bench with
            | .error e => .error e
            | .ok benchSlots =>
              if benchSlots.contains (some player) then .ok (some r.positions.cls.bench)
              else .ok none

/-- One iteration of the loop in `Roster.drop`: the guard
`if player not in self.roster[player.position]: raise ValueError(player)`,
then the locate chain, then
`self.roster[position][self.roster[position].index(player)] = None`. -/
def Roster.dropStep (r : Roster) (player : Player) :
    Except PyErr (Roster × Option Player) :=
  match dictGet r.roster player.position with
  | .error e => .error e
  | .ok natural =>
    if natural.contains (some player) = false then .error .valueError
    else
      match Roster.dropChoose r player with
      | .error e => .error e
      | .ok none => .ok (r, none)
      | .ok (some position) =>
        match dictGet r.roster position with
        | .error e => .error e
        | .ok slots =>
          match tupleIndex slots (some player) with
          | .error e => .error e
          | .ok idx =>
            match tupleSetItem slots idx none with
            | .error e => .error e
            | .ok slots2 =>
              .ok ({ r with roster := dictSet r.roster position slots2 }, some player)

/-- The loop of `Roster.drop` over the input players. -/
def Roster.dropRun (r : Roster) (dropped : List Player) :
    List Player → Roster × Except PyErr (List Player)
  | [] => (r, .ok dropped)
  | p :: rest =>
    match Roster.dropStep r p with
    | .error e => (r, .error e)
    | .ok (r2, none) => Roster.dropRun r2 dropped rest
    | .ok (r2, some q) => Roster.dropRun r2 (dropped ++ [q]) rest

/-- `Roster.drop(*players)`. -/
def Roster.drop (r : Roster) (players : List Player) :
    Roster × Except PyErr (List Player) :=
  match Positions.validate r.positions players with
  | .error e => (r, .error e)
  | .ok _ => Roster.dropRun r [] players

/-- The source-slot search of `Roster.move`: natural position, then flex,
then bench, raising ValueError when the player is in none of them. -/
def Roster.moveSource (r : Roster) (player : Player) : Except PyErr String :=
  match dictGet r.roster player.position with
  | .error e => .error e
  | .ok natural =>
    if natural.contains (some player) then .ok player.position
    else
      match pyAttr r.positions.cls.flex with
      | .error e => .error e
      | .ok flexCode =>
        match dictGet r.roster flexCode with
        | .error e => .error e
        | .ok flexSlots =>
          if flexSlots.contains (some player) then .ok flexCode
          else
            match dictGet r.roster r.positions.cls.bench with
            | .error e => .error e
            | .ok benchSlots =>
              if benchSlots.contains (some player) then .ok r.positions.cls.bench
              else .error .valueError

/-- `Roster.move(player, destination, replace=None)`: validate, check
`moveable`, test fullness of the destination via the (always-raising)
`Positions` subscript, locate the source slot, then execute
`self.roster[source], self.roster[destination] = replace, player`.  That
final statement rebinds both dict entries to bare optional players rather
than slot tuples; it is unreachable (the capacity subscript raises first)
and is modelled as leaving the slot map unchanged. -/
def Roster.move (r : Roster) (player : Player) (destination : String)
    (replace : Option Player) : Roster × Except PyErr Unit :=
  match Positions.validate r.positions [player] with
  | .error e => (r, .error e)
  | .ok _ =>
    match Positions.moveable r.positions player destination with
    | .error e => (r, .error e)
    | .ok mv =>
      if mv = false then (r, .error .valueError)
      else
        match dictGet r.roster destination with
        | .error e => (r, .error e)
        | .ok destSlots =>
          match Positions.getItem r.positions destination with
          | .error e => (r, .error e)
          | .ok destCap =>
            if destSlots.length == destCap && replace.isNone then (r, .error .valueError)
            else
              match Roster.moveSource r player with
              | .error e => (r, .error e)
              | .ok _source => ({ r with roster := r.roster }, .ok ())

/-- The `add`/`drop` keyword arguments of `transaction` and `trade`: a
single `Player`, a sequence, or `None` (the declared default). -/
inductive PlayerArg where
  | pynone
  | player (p : Player)
  | seq (ps : List Player)
  deriving DecidableEq, Repr

/-- `self.add(add) if isinstance(add, Player) else self.add(*add)`:
a bare player is wrapped, a sequence is unpacked, and `None` hits
`self.add(*None)`, raising TypeError for unpacking a non-iterable. -/
def Roster.addArg (r : Roster) : PlayerArg → Roster × Except PyErr (List Player)
  | .player p => Roster.add r [p]
  | .seq ps => Roster.add r ps
  | .pynone => (r, .error .typeErrorUnpackNone)

/-- `self.drop(drop) if isinstance(drop, Player) else self.drop(*drop)`. -/
def Roster.dropArg (r : Roster) : PlayerArg → Roster × Except PyErr (List Player)
  | .player p => Roster.drop r [p]
  | .seq ps => Roster.drop r ps
  | .pynone => (r, .error .typeErrorUnpackNone)

/-- `Roster.transaction(add=..., drop=...)`: builds the summary dict, whose
literal evaluates the `add` entry first, then the `drop` entry. -/
def Roster.transaction (r : Roster) (add drop : PlayerArg) :
    Roster × Except PyErr (List Player × List Player) :=
  match Roster.addArg r add with
  | (r2, .error e) => (r2, .error e)
  | (r2, .ok plus) =>
    match Roster.dropArg r2 drop with
    | (r3, .error e) => (r3, .error e)
    | (r3, .ok minus) => (r3, .ok (plus, minus))

/-- `Roster.trade(other, add=..., drop=...)`: evaluates, in dict-literal
order, `self.add(add)`, `self.drop(drop)`, `other.add(drop)`,
`other.drop(add)`; the pair of updated rosters is `(self, other)`. -/
def Roster.trade (self other : Roster) (add drop : PlayerArg) :
    (Roster × Roster) ×
      Except PyErr ((List Player × List Player) × (List Player × List Player)) :=
  match Roster.addArg self add with
  | (s1, .error e) => ((s1, other), .error e)
  | (s1, .ok selfAdded) =>
    match Roster.dropArg s1 drop with
    | (s2, .error e) => ((s2, other), .error e)
    | (s2, .ok selfDropped) =>
      match Roster.addArg other drop with
      | (o1, .error e) => ((s2, o1), .error e)
      | (o1, .ok otherAdded) =>
        match Roster.dropArg o1 add with
        | (o2, .error e) => ((s2, o2), .error e)
        | (o2, .ok otherDropped) =>
          ((s2, o2), .ok ((selfAdded, selfDropped), (otherAdded, otherDropped)))

/-- The dict comprehension of `Roster.__init__`:
`{k: tuple(None for _ in range(self.positions.schema[k])) for k in self.positions.positions}`. -/
def Roster.initSlots (p : Positions) :
    List String → Except PyErr (List (String × List (Option Player)))
  | [] => .ok []
  | k :: rest =>
    match dictGet p.schema k with
    | .error e => .error e
    | .ok cnt =>
      match Roster.initSlots p rest with
      | .error e => .error e
      | .ok tail => .ok ((k, List.replicate cnt (none : Option Player)) :: tail)

/-- `Roster.__init__(positions, *players)`: build the empty slot map, then
`self.add(*players)`; an exception in `add` propagates and no roster object
is produced. -/
def Roster.init (p : Positions) (players : List Player) :
    Except PyErr (Roster × List Player) :=
  match PositionsClass.positionsAttr p.cls with
  | .error e => .error e
  | .ok posList =>
    match Roster.initSlots p posList with
    | .error e => .error e
    | .ok slots =>
      match Roster.add ⟨p, slots⟩ players with
      | (_r1, .error e) => .error e
      | (r1, .ok added) => .ok (r1, added)

/-- `SnakeDraft` state: the roster tuple, the round count, the completed-pick
count `_size`, the remaining-picks iterator `_picks` as a list of
`(round, pick)` pairs (both 1-indexed, as produced by the generator in
`reset`), and the results grid, row `nround - 1`, one column per roster in
tuple order (the source keys columns by `id(roster)`; ids are in bijection
with tuple positions for distinct roster objects). -/
structure SnakeDraft where
  rosters : List Roster
  nrounds : Nat
  size : Nat
  picks : List (Nat × Nat)
  results : List (List (Option Player))
  deriving DecidableEq, Repr

/-- `nteams`: `len(self.rosters)`. -/
def SnakeDraft.nteams (d : SnakeDraft) : Nat := d.rosters.length

/-- `volume`: `self.nrounds * self.nteams`. -/
def SnakeDraft.volume (d : SnakeDraft) : Nat := d.nrounds * d.nteams

/-- `reset()`: `_size = 0`, `_picks = ((i // nteams + 1, i + 1) for i in
range(volume))`, and a fresh all-empty results grid. -/
def SnakeDraft.reset (d : SnakeDraft) : SnakeDraft :=
  { d with
    size := 0
    picks := (List.range d.volume).map (fun i => (i / d.nteams + 1, i + 1))
    results := List.replicate d.nrounds
      (List.replicate d.nteams (none : Option Player)) }

/-- `SnakeDraft.__init__(rosters, nrounds)`: store both, then `reset()`. -/
def SnakeDraft.init (rosters : List Roster) (nrounds : Nat) : SnakeDraft :=
  SnakeDraft.reset
    { rosters := rosters, nrounds := nrounds, size := 0, picks := [], results := [] }

/-- `peek()`: the head of the remaining picks without consuming it, or
`None, None` (here `none`) when the generator is exhausted. -/
def SnakeDraft.peek (d : SnakeDraft) : Option (Nat × Nat) := d.picks.head?

/-- `get_nround(pick)`: range check `1 <= pick <= volume` (ValueError
otherwise), then `(pick - 1) // self.nteams`.  Lean integer `/` is Euclidean
division, which agrees with Python floor division on the non-negative
operands reachable here. -/
def SnakeDraft.get_nround (d : SnakeDraft) (pick : Int) : Except PyErr Int :=
  if 1 ≤ pick ∧ pick ≤ (d.volume : Int) then .ok ((pick - 1) / (d.nteams : Int))
  else .error .valueError

/-- `get_team(pick)`: returns the index into `self.rosters` that the source
subscripts (`self.rosters[...]`), selected by the parity of
`get_nround(pick)`.  Lean integer `%` is Euclidean remainder, agreeing with
Python `%` for the positive modulus used here. -/
def SnakeDraft.get_team (d : SnakeDraft) (pick : Int) : Except PyErr Nat :=
  match SnakeDraft.get_nround d pick with
  | .error e => .error e
  | .ok nr =>
    if nr % 2 = 1 then .ok ((pick - 1) % (d.nteams : Int)).toNat
    else .ok ((d.nteams : Int) - ((pick - 1) % (d.nteams : Int) + 1)).toNat

/-- Grid read `self.results.loc[nround, id(roster)]` with 1-indexed round
and the roster's column; a missing label is a KeyError. -/
def gridGet (g : List (List (Option Player))) (nround col : Nat) :
    Except PyErr (Option Player) :=
  match g[nround - 1]? with
  | none => .error .keyError
  | some row =>
    match row[col]? with
    | none => .error .keyError
    | some c => .ok c

/-- Grid write `self.results.loc[nround, id(roster)] = v` (writing `np.nan`
is modelled as writing `none`). -/
def gridSet (g : List (List (Option Player))) (nround col : Nat)
    (v : Option Player) : Except PyErr (List (List (Option Player))) :=
  match g[nround - 1]? with
  | none => .error .keyError
  | some row =>
    match row[col]? with
    | none => .error .keyError
    | some _ => .ok (g.set (nround - 1) (row.set col v))

/-- `push(player)`: `next(self._picks)` consumes the next pick (StopIteration
when exhausted) before anything else, so a later failure leaves the cursor
advanced; then `get_team`, `roster.add(player)` (a raise propagates, and a
missing player in the returned list is a ValueError), then the grid write,
the size increment, and the return of `(nround, pick)`. -/
def SnakeDraft.push (d : SnakeDraft) (player : Player) :
    SnakeDraft × Except PyErr (Nat × Nat) :=
  match d.picks with
  | [] => (d, .error .stopIteration)
  | (nround, pick) :: rest =>
    let d1 := { d with picks := rest }
    match SnakeDraft.get_team d1 (pick : Int) with
    | .error e => (d1, .error e)
    | .ok idx =>
      match d1.rosters[idx]? with
      | none => (d1, .error .indexError)
      | some roster =>
        match Roster.add roster [player] with
        | (roster2, .error e) =>
          ({ d1 with rosters := d1.rosters.set idx roster2 }, .error e)
        | (roster2, .ok added) =>
          let d2 := { d1 with rosters := d1.rosters.set idx roster2 }
          if added.contains player = false then (d2, .error .valueError)
          else
            match gridSet d2.results nround idx (some player) with
            | .error e => (d2, .error e)
            | .ok g =>
              ({ d2 with results := g, size := d2.size + 1 }, .ok (nround, pick))

/-- `pop()`: `None` when no picks were made; otherwise recompute the
`(round, pick)` of the most recent pick from `peek()` (stepping the round
back across a round boundary, or taking the final pick when the cursor is
exhausted), read the grid cell (an empty cell holds `np.nan`, and
`drop(nan)` dies with AttributeError on `nan.position`), drop the player
from the owning roster (ValueError when it is missing from the returned
list), clear the cell, decrement the size, and re-chain `(nround, pick)` in
front of the remaining picks. -/
def SnakeDraft.pop (d : SnakeDraft) : SnakeDraft × Except PyErr (Option Player) :=
  if d.size = 0 then (d, .ok none)
  else
    let nround : Nat :=
      match SnakeDraft.peek d with
      | none => d.nrounds
      | some (nr, pk) => if (pk - 1) % d.nteams = 0 then nr - 1 else nr
    let pick : Nat :=
      match SnakeDraft.peek d with
      | none => d.volume
      | some (_, pk) => pk - 1
    match SnakeDraft.get_team d (pick : Int) with
    | .error e => (d, .error e)
    | .ok idx =>
      match d.rosters[idx]? with
      | none => (d, .error .indexError)
      | some roster =>
        match gridGet d.results nround idx with
        | .error e => (d, .error e)
        | .ok none => (d, .error .attributeError)
        | .ok (some player) =>
          match Roster.drop roster [player] with
          | (roster2, .error e) =>
            ({ d with rosters := d.rosters.set idx roster2 }, .error e)
          | (roster2, .ok dropped) =>
            let d2 := { d with rosters := d.rosters.set idx roster2 }
            if dropped.contains player = false then (d2, .error .valueError)
            else
              match gridSet d2.results nround idx none with
              | .error e => (d2, .error e)
              | .ok g =>
                ({ d2 with
                    results := g
                    size := d2.size - 1
                    picks := (nround, pick) :: d2.picks }, .ok (some player))

/-- Per-position slot-length invariant of a roster: every entry of the slot
map has exactly as many slots as the schema assigns to its code.  The
occupied-slot count of an entry is therefore bounded by its schema count. -/
def Roster.inv (r : Roster) : Prop :=
  ∀ pr ∈ r.roster, dictGet r.positions.schema pr.1 = Except.ok pr.2.length

instance (r : Roster) : Decidable (Roster.inv r) :=
  decidable_of_iff
    (∀ pr ∈ r.roster, dictGet r.positions.schema pr.1 = Except.ok pr.2.length)
    Iff.rfl

def qb : Player := { position := "QB", injured_reserve := false }

def wrA : Player := { position := "WR", injured_reserve := false }

/-- The scenario schema `{QB:1, WR:2, RB:2, TE:1, FLEX:1, DST:1, K:1, BN:6,
IR:1}` instantiated with the Yahoo codes (the Yahoo preset is the only
shipped class whose `positions` attribute works and lists all nine codes). -/
def yahooSchema : List (String × Nat) :=
  [("QB", 1), ("WR", 2), ("RB", 2), ("TE", 1), ("W-R-T", 1), ("DEF", 1),
   ("K", 1), ("BN", 6), ("IR", 1)]

def yahooPositionsInst : Positions :=
  { cls := positionsYahooCls, schema := yahooSchema }

/-- The roster produced by `Roster.__init__(PositionsYahoo(...))` with no
players: one empty slot tuple per code. -/
def rEmpty : Roster :=
  { positions := yahooPositionsInst
    roster :=
      [("QB", [none]), ("WR", [none, none]), ("RB", [none, none]),
       ("TE", [none]), ("W-R-T", [none]), ("DEF", [none]), ("K", [none]),
       ("BN", [none, none, none, none, none, none]), ("IR", [none])] }

/-- `rEmpty` with the quarterback occupying its natural slot.  No public
operation can produce this state (every placement raises), but it is
directly constructible in Python by assigning `_roster`. -/
def rWithQB : Roster :=
  { positions := yahooPositionsInst
    roster :=
      [("QB", [some qb]), ("WR", [none, none]), ("RB", [none, none]),
       ("TE", [none]), ("W-R-T", [none]), ("DEF", [none]), ("K", [none]),
       ("BN", [none, none, none, none, none, none]), ("IR", [none])] }

/-- `rEmpty` with a wide receiver sitting on the bench while both natural
WR slots are empty. -/
def rBenchWR : Roster :=
  { positions := yahooPositionsInst
    roster :=
      [("QB", [none]), ("WR", [none, none]), ("RB", [none, none]),
       ("TE", [none]), ("W-R-T", [none]), ("DEF", [none]), ("K", [none]),
       ("BN", [some wrA, none, none, none, none, none]), ("IR", [none])] }

/-- A 1-team, 1-round snake draft over the Yahoo-schema roster. -/
def draft1 : SnakeDraft := SnakeDraft.init [rEmpty] 1

/-- A 4-team, 3-round snake draft (the configuration named by the spec's
snake invariant). -/
def draft43 : SnakeDraft := SnakeDraft.init [rEmpty, rEmpty, rEmpty, rEmpty] 3

theorem Roster.addChoose_error (r : Roster) (p : Player) :
    ∃ e, Roster.addChoose r p = Except.error e := by
  cases h : dictGet r.roster p.position with
  | error e => exact ⟨e, by simp [Roster.addChoose, h]⟩
  | ok natural =>
    exact ⟨.typeErrorNotSubscriptable,
      by simp [Roster.addChoose, h, Positions.getItem]⟩

theorem Roster.addStep_error (r : Roster) (p : Player) :
    ∃ e, Roster.addStep r p = Except.error e := by
  obtain ⟨e, he⟩ := Roster.addChoose_error r p
  exact ⟨e, by simp [Roster.addStep, he]⟩

theorem Roster.addRun_fst (r : Roster) (acc ps : List Player) :
    (Roster.addRun r acc ps).1 = r := by
  cases ps with
  | nil => rfl
  | cons p rest =>
    obtain ⟨e, he⟩ := Roster.addStep_error r p
    simp [Roster.addRun, he]

theorem Roster.add_fst (r : Roster) (ps : List Player) :
    (Roster.add r ps).1 = r := by
  cases h : Positions.validate r.positions ps with
  | error e => simp [Roster.add, h]
  | ok u => simp [Roster.add, h, Roster.addRun_fst]

theorem Roster.dropStep_error (r : Roster) (p : Player) :
    ∃ e, Roster.dropStep r p = Except.error e := by
  cases h : dictGet r.roster p.position with
  | error e => exact ⟨e, by simp [Roster.dropStep, h]⟩
  | ok natural =>
    by_cases hm : some p ∈ natural
    · have hc : natural.contains (some p) = true := by simpa using hm
      cases hti : tupleIndex natural (some p) with
      | error e =>
        exact ⟨e, by simp [Roster.dropStep, Roster.dropChoose, h, hc, hm, hti]⟩
      | ok idx =>
        exact ⟨.typeErrorTupleAssign,
          by simp [Roster.dropStep, Roster.dropChoose, h, hc, hm, hti, tupleSetItem]⟩
    · have hc : natural.contains (some p) = false := by simpa using hm
      exact ⟨.valueError, by simp [Roster.dropStep, h, hc, hm]⟩

theorem Roster.dropRun_fst (r : Roster) (acc ps : List Player) :
    (Roster.dropRun r acc ps).1 = r := by
  cases ps with
  | nil => rfl
  | cons p rest =>
    obtain ⟨e, he⟩ := Roster.dropStep_error r p
    simp [Roster.dropRun, he]

theorem Roster.drop_fst (r : Roster) (ps : List Player) :
    (Roster.drop r ps).1 = r := by
  cases h : Positions.validate r.positions ps with
  | error e => simp [Roster.drop, h]
  | ok u => simp [Roster.drop, h, Roster.dropRun_fst]

theorem Roster.move_fst (r : Roster) (p : Player) (dest : String)
    (rep : Option Player) : (Roster.move r p dest rep).1 = r := by
  unfold Roster.move
  repeat' split
  all_goals rfl

theorem Roster.addArg_fst (r : Roster) (a : PlayerArg) :
    (Roster.addArg r a).1 = r := by
  cases a <;> simp [Roster.addArg, Roster.add_fst]

theorem Roster.dropArg_fst (r : Roster) (a : PlayerArg) :
    (Roster.dropArg r a).1 = r := by
  cases a <;> simp [Roster.dropArg, Roster.drop_fst]

theorem Roster.transaction_fst (r : Roster) (a d : PlayerArg) :
    (Roster.transaction r a d).1 = r := by
  have ha := Roster.addArg_fst r a
  rcases h : Roster.addArg r a with ⟨r2, res⟩
  rw [h] at ha
  have ha2 : r2 = r := ha
  subst ha2
  cases res with
  | error e => simp [Roster.transaction, h]
  | ok plus =>
    have hd := Roster.dropArg_fst r2 d
    rcases h2 : Roster.dropArg r2 d with ⟨r3, res2⟩
    rw [h2] at hd
    have hd2 : r3 = r2 := hd
    subst hd2
    cases res2 <;> simp [Roster.transaction, h, h2]

theorem Roster.trade_fst (s o : Roster) (a d : PlayerArg) :
    (Roster.trade s o a d).1 = (s, o) := by
  have ha := Roster.addArg_fst s a
  rcases h1 : Roster.addArg s a with ⟨s1, res1⟩
  rw [h1] at ha
  have ha2 : s1 = s := ha
  subst ha2
  cases res1 with
  | error e => simp [Roster.trade, h1]
  | ok selfAdded =>
    have hd := Roster.dropArg_fst s1 d
    rcases h2 : Roster.dropArg s1 d with ⟨s2, res2⟩
    rw [h2] at hd
    have hd2 : s2 = s1 := hd
    subst hd2
    cases res2 with
    | error e => simp [Roster.trade, h1, h2]
    | ok selfDropped =>
      have ho := Roster.addArg_fst o d
      rcases h3 : Roster.addArg o d with ⟨o1, res3⟩
      rw [h3] at ho
      have ho2 : o1 = o := ho
      subst ho2
      cases res3 with
      | error e => simp [Roster.trade, h1, h2, h3]
      | ok otherAdded =>
        have hq := Roster.dropArg_fst o1 a
        rcases h4 : Roster.dropArg o1 a with ⟨o2, res4⟩
        rw [h4] at hq
        have hq2 : o2 = o1 := hq
        subst hq2
        cases res4 <;> simp [Roster.trade, h1, h2, h3, h4]

theorem Roster.initSlots_inv (p : Positions) (ks : List String)
    (slots : List (String × List (Option Player)))
    (h : Roster.initSlots p ks = Except.ok slots) :
    ∀ pr ∈ slots, dictGet p.schema pr.1 = Except.ok pr.2.length := by
  induction ks generalizing slots with
  | nil =>
    simp only [Roster.initSlots, Except.ok.injEq] at h
    subst h
    simp
  | cons k rest ih =>
    cases hk : dictGet p.schema k with
    | error e => simp [Roster.initSlots, hk] at h
    | ok cnt =>
      cases ht : Roster.initSlots p rest with
      | error e => simp [Roster.initSlots, hk, ht] at h
      | ok tail =>
        simp only [Roster.initSlots, hk, ht, Except.ok.injEq] at h
        subst h
        intro pr hpr
        rcases List.mem_cons.mp hpr with hhead | htail
        · subst hhead
          simpa using hk
        · exact ih tail ht pr htail

/-- C1: the claimed push/pop round trip is impossible on the code.  On a
fresh 1-team, 1-round draft whose roster has a vacant natural slot for the
offered quarterback, the very first `push` raises TypeError (the
`Positions` subscript inside `Roster.add`), records nothing, and leaves the
pick cursor consumed — so the sequencer is not even back at its post-reset
state (whose cursor holds `(1, 1)`). -/
theorem C1_roundtrip_impossible :
    (SnakeDraft.push draft1 qb).2 = .error .typeErrorNotSubscriptable ∧
    (SnakeDraft.push draft1 qb).1.size = 0 ∧
    (SnakeDraft.push draft1 qb).1.picks = [] ∧
    (SnakeDraft.reset draft1).picks = [(1, 1)] := by decide

/-- C2: on the 3-round, 4-team draft, `get_team(1)..get_team(12)` select
roster indices `[3,2,1,0, 0,1,2,3, 3,2,1,0]`: the first round is reversed
and the second is forward, the opposite of the claimed pattern, because the
parity test uses the 0-indexed result of `get_nround`. -/
theorem C2_get_team_first_round_reversed :
    (List.range 12).map (fun i => SnakeDraft.get_team draft43 ((i : Int) + 1)) =
      [.ok 3, .ok 2, .ok 1, .ok 0, .ok 0, .ok 1, .ok 2, .ok 3,
       .ok 3, .ok 2, .ok 1, .ok 0] := by decide

/-- C3: `get_nround` does raise a range error outside `[1, R·N]`, but inside
the range it returns the 0-indexed quotient `(p - 1) // N`, not the claimed
1-indexed `⌈p / N⌉`: pick 1 of the 3-round, 4-team draft yields 0, and
pick 12 yields 2. -/
theorem C3_get_nround_zero_indexed :
    SnakeDraft.get_nround draft43 1 = .ok 0 ∧
    SnakeDraft.get_nround draft43 12 = .ok 2 ∧
    SnakeDraft.get_nround draft43 0 = .error .valueError ∧
    SnakeDraft.get_nround draft43 13 = .error .valueError ∧
    SnakeDraft.get_nround draft43 (-3) = .error .valueError := by decide

/-- C4: `add` places nobody.  Adding one quarterback to a roster whose QB
slot is vacant raises TypeError at the first vacancy test (the `Positions`
subscript) and leaves the roster unchanged; only the empty batch succeeds,
returning the empty added list. -/
theorem C4_add_raises_type_error :
    Roster.add rEmpty [qb] = (rEmpty, .error .typeErrorNotSubscriptable) ∧
    Roster.add rEmpty [] = (rEmpty, .ok []) := by decide

/-- C5: the per-position slot-length (and hence occupied-count) invariant is
established by `Roster.__init__` and preserved by `add`, `drop`, `move`,
`transaction` and `trade`, whether they succeed or raise: no operation ever
rewrites a slot tuple.  The final conjunct derives the occupied-slots bound
from the invariant. -/
theorem C5_slot_capacity_invariant :
    (∀ p ps r rem, Roster.init p ps = Except.ok (r, rem) → Roster.inv r) ∧
    (∀ r ps, Roster.inv r → Roster.inv (Roster.add r ps).1) ∧
    (∀ r ps, Roster.inv r → Roster.inv (Roster.drop r ps).1) ∧
    (∀ r pl dest rep, Roster.inv r → Roster.inv (Roster.move r pl dest rep).1) ∧
    (∀ r a d, Roster.inv r → Roster.inv (Roster.transaction r a d).1) ∧
    (∀ s o a d, Roster.inv s → Roster.inv o →
      Roster.inv (Roster.trade s o a d).1.1 ∧
      Roster.inv (Roster.trade s o a d).1.2) ∧
    (∀ r, Roster.inv r → ∀ pr ∈ r.roster, ∀ cnt,
      dictGet r.positions.schema pr.1 = Except.ok cnt →
      pr.2.countP (fun s => s.isSome) ≤ cnt) := by
  refine ⟨?_, ?_, ?_, ?_, ?_, ?_, ?_⟩
  · intro p ps r rem h
    cases hp : PositionsClass.positionsAttr p.cls with
    | error e => simp [Roster.init, hp] at h
    | ok posList =>
      cases hs : Roster.initSlots p posList with
      | error e => simp [Roster.init, hp, hs] at h
      | ok slots =>
        have hfst := Roster.add_fst ⟨p, slots⟩ ps
        rcases hadd : Roster.add ⟨p, slots⟩ ps with ⟨r1, res⟩
        rw [hadd] at hfst
        have hr1 : r1 = ⟨p, slots⟩ := hfst
        cases res with
        | error e => simp [Roster.init, hp, hs, hadd] at h
        | ok added =>
          simp only [Roster.init, hp, hs, hadd, Except.ok.injEq, Prod.mk.injEq] at h
          rw [← h.1, hr1]
          intro pr hpr
          exact Roster.initSlots_inv p posList slots hs pr hpr
  · intro r ps hr
    rw [Roster.add_fst]
    exact hr
  · intro r ps hr
    rw [Roster.drop_fst]
    exact hr
  · intro r pl dest rep hr
    rw [Roster.move_fst]
    exact hr
  · intro r a d hr
    rw [Roster.transaction_fst]
    exact hr
  · intro s o a d hs ho
    constructor
    · rw [Roster.trade_fst]
      exact hs
    · rw [Roster.trade_fst]
      exact ho
  · intro r hr pr hpr cnt hcnt
    have hlen := hr pr hpr
    rw [hcnt] at hlen
    have : cnt = pr.2.length := by
      injection hlen
    rw [this]
    exact List.countP_le_length _

/-- Witness for C5: the invariant holds of the freshly built Yahoo-schema
roster, and is preserved when `add` is attempted on it. -/
theorem C5_slot_capacity_invariant_witness :
    Roster.inv (Roster.add rEmpty [qb]).1 :=
  C5_slot_capacity_invariant.2.1 rEmpty [qb] (by decide)

/-- C6: dropping a player absent from its natural-position slot array raises
the claimed not-found ValueError even when the player sits on the bench;
but when the player is present in its natural slot, `drop` does not vacate
it — it raises TypeError, because the slot array is an immutable tuple. -/
theorem C6_drop_not_found_and_tuple_assign :
    Roster.drop rBenchWR [wrA] = (rBenchWR, .error .valueError) ∧
    Roster.drop rWithQB [qb] = (rWithQB, .error .typeErrorTupleAssign) := by decide

/-- C7: moving a rostered quarterback to the bench with six vacant bench
slots and no replacement does not succeed: `move` raises TypeError at its
destination-fullness test (`self.positions[destination]` subscripts the
`Positions` instance), before any slot is touched. -/
theorem C7_move_raises_type_error :
    Roster.move rWithQB qb "BN" none =
      (rWithQB, .error .typeErrorNotSubscriptable) := by decide

/-- C8 counterexample: "XYZ" is not a canonical Yahoo position code, yet
`flexable` returns the value `false` for it — it is a total boolean
expression with no raise path — refuting the claim that non-canonical codes
raise. -/
theorem C8_flexable_nonraising_counterexample :
    PositionsClass.flexable positionsYahooCls "XYZ" = false ∧
    PositionsClass.positionsAttr positionsYahooCls =
      .ok ["QB", "WR", "RB", "TE", "W-R-T", "DEF", "K", "BN", "IR"] ∧
    "XYZ" ∉ ["QB", "WR", "RB", "TE", "W-R-T", "DEF", "K", "BN", "IR"] := by decide

/-- C8 amended: `flexable(p)` is true iff `p` is an offense code other than
"QB"; it returns false — without raising — for QB, the DST code, the kicker
code, and every non-canonical code alike. -/
theorem C8_flexable_amended :
    (∀ c pos, PositionsClass.flexable c pos = true ↔ pos ∈ c.offense ∧ pos ≠ "QB") ∧
    PositionsClass.flexable positionsYahooCls "QB" = false ∧
    PositionsClass.flexable positionsYahooCls "DEF" = false ∧
    PositionsClass.flexable positionsYahooCls "K" = false ∧
    PositionsClass.flexable positionsESPNCls "D/ST" = false ∧
    PositionsClass.flexable positionsYahooCls "WR" = true := by
  refine ⟨?_, by decide, by decide, by decide, by decide, by decide⟩
  intro c pos
  simp [PositionsClass.flexable]

/-- C9: of the three shipped classes, only `PositionsYahoo` yields the
claimed concatenation offense + flex + dst + kicker + bench + IR (duplicate
free).  The base `Positions` class raises AttributeError (`flex` and `dst`
are never assigned), and `PositionsESPN` yields the bare class attribute
`("QB","RB","WR","TE")` that shadows the `positions` property. -/
theorem C9_positions_presets :
    PositionsClass.positionsAttr positionsBaseCls = .error .attributeError ∧
    PositionsClass.positionsAttr positionsESPNCls = .ok ["QB", "RB", "WR", "TE"] ∧
    PositionsClass.positionsAttr positionsYahooCls =
      .ok ["QB", "WR", "RB", "TE", "W-R-T", "DEF", "K", "BN", "IR"] ∧
    (["QB", "WR", "RB", "TE", "W-R-T", "DEF", "K", "BN", "IR"] : List String).Nodup := by
  decide

/-- C10: `transaction` and `trade` with `add` left as `None` fail with the
unpacking TypeError for every roster state and every `drop` argument, and
with `drop` left as `None` they fail the same way as soon as the add side
completes (here: the empty batch); the omitted side is never treated as an
empty batch. -/
theorem C10_transaction_trade_unpack_none (r s o : Roster) (d : PlayerArg) :
    Roster.transaction r PlayerArg.pynone d = (r, .error .typeErrorUnpackNone) ∧
    Roster.transaction r (PlayerArg.seq []) PlayerArg.pynone =
      (r, .error .typeErrorUnpackNone) ∧
    Roster.trade s o PlayerArg.pynone d = ((s, o), .error .typeErrorUnpackNone) ∧
    Roster.trade s o (PlayerArg.seq []) PlayerArg.pynone =
      ((s, o), .error .typeErrorUnpackNone) :=
  ⟨rfl, rfl, rfl, rfl⟩

end NflFantasy
